import Mathlib

/-!
Shallow embedding of `src/ui/scenic/lib/flatland/engine/display_compositor.cc`
(the Flatland `DisplayCompositor`).

Conventions used throughout:
* `std::unordered_map` fields become association lists over `Nat` keys
  (`alookup` / `ainsert` / `aerase`); keys are unique in every reachable map,
  and lookup returns the first binding.
* Calls into external collaborators (display controller, renderer, sysmem)
  whose results the compositor branches on are supplied by small oracle
  records; calls whose only effect is external are recorded in an `ops` log.
* `zx::event` objects are modelled by their signaled bit; `signal(SIGNALED, 0)`
  clears the bit, `signal(0, SIGNALED)` sets it.
* C++ floats are modelled as exact rationals (`ℚ`); the float-to-`uint8_t`
  conversion is modelled by `cxxFloatToUint8`, which returns `none` exactly
  when the conversion is undefined behaviour in C++ (truncated value outside
  the `uint8_t` range).
-/

namespace Flatland

/-- Lookup in an association-list map (first binding wins, mirroring the
unique-key invariant of `std::unordered_map`). -/
def alookup {α : Type} : List (Nat × α) → Nat → Option α
  | [], _ => none
  | (k, v) :: rest, k' => if k = k' then some v else alookup rest k'

/-- Insert-or-assign in an association-list map (replaces the first binding of
the key, appends a new binding otherwise). -/
def ainsert {α : Type} : List (Nat × α) → Nat → α → List (Nat × α)
  | [], k, v => [(k, v)]
  | (k0, v0) :: rest, k, v =>
      if k0 = k then (k, v) :: rest else (k0, v0) :: ainsert rest k v

/-- Erase a key from an association-list map. -/
def aerase {α : Type} : List (Nat × α) → Nat → List (Nat × α)
  | [], _ => []
  | (k0, v0) :: rest, k =>
      if k0 = k then aerase rest k else (k0, v0) :: aerase rest k

theorem alookup_ainsert_self {α : Type} (m : List (Nat × α)) (k : Nat) (v : α) :
    alookup (ainsert m k v) k = some v := by
  induction m with
  | nil => simp [ainsert, alookup]
  | cons hd tl ih =>
      obtain ⟨k0, v0⟩ := hd
      by_cases h : k0 = k
      · simp [ainsert, alookup, h]
      · simp [ainsert, alookup, h, ih]

theorem alookup_ainsert_ne {α : Type} (m : List (Nat × α)) (k k' : Nat) (v : α)
    (h : k ≠ k') : alookup (ainsert m k v) k' = alookup m k' := by
  induction m with
  | nil => simp [ainsert, alookup, h]
  | cons hd tl ih =>
      obtain ⟨k0, v0⟩ := hd
      by_cases h0 : k0 = k
      · subst h0
        simp [ainsert, alookup, h]
      · simp [ainsert, alookup, h0, ih]

theorem alookup_aerase_self {α : Type} (m : List (Nat × α)) (k : Nat) :
    alookup (aerase m k) k = none := by
  induction m with
  | nil => simp [aerase, alookup]
  | cons hd tl ih =>
      obtain ⟨k0, v0⟩ := hd
      by_cases h : k0 = k
      · simpa [aerase, h] using ih
      · simp [aerase, alookup, h, ih]

theorem alookup_aerase_ne {α : Type} (m : List (Nat × α)) (k k' : Nat)
    (h : k ≠ k') : alookup (aerase m k) k' = alookup m k' := by
  induction m with
  | nil => simp [aerase, alookup]
  | cons hd tl ih =>
      obtain ⟨k0, v0⟩ := hd
      by_cases h0 : k0 = k
      · subst h0
        simp [aerase, alookup, h, ih]
      · simp [aerase, alookup, h0, ih]

/-- `fuchsia.sysmem.PixelFormatType` values that appear in the compositor. -/
inductive PixelFormatType where
  | bgra32
  | r8g8b8a8
  | nv12
  | i420
deriving DecidableEq

/-- `allocation::ImageMetadata`: identifier, collection, vmo index, extent and
multiply color (four normalized float channels, modelled exactly as `ℚ`). -/
structure ImageMetadata where
  identifier : Nat
  collectionId : Nat
  vmoIndex : Nat
  width : Nat
  height : Nat
  multiplyColor0 : ℚ
  multiplyColor1 : ℚ
  multiplyColor2 : ℚ
  multiplyColor3 : ℚ
deriving DecidableEq

/-- An `ImageRect`: origin and extent are floats in the source, modelled as
exact rationals. -/
structure ImageRect where
  originX : ℚ
  originY : ℚ
  extentX : ℚ
  extentY : ℚ
deriving DecidableEq

/-- One per-display entry of the `render_data_list` handed to `RenderFrame`:
parallel lists of rectangles and images plus the target display. -/
structure RenderData where
  displayId : Nat
  rectangles : List ImageRect
  images : List ImageMetadata
deriving DecidableEq

/-- `DisplayCompositor::ImageEventData`: per-client-image signal event
(pre-signaled at creation) plus its display-controller event id. -/
structure ImageEventData where
  signalSignaled : Bool
  signalId : Nat
deriving DecidableEq

/-- `DisplayCompositor::FrameEventData`: the per-back-buffer wait/signal fence
pair and their display-controller event ids. -/
structure FrameEventData where
  waitSignaled : Bool
  signalSignaled : Bool
  waitId : Nat
  signalId : Nat
deriving DecidableEq

/-- `DisplayCompositor::DisplayEngineData`: per-display layers, back-buffer
ring bookkeeping and frame-event ring. -/
structure DisplayEngineData where
  layers : List Nat
  vmoCount : Nat
  currVmo : Nat
  frameEventDatas : List FrameEventData
  renderTargets : List ImageMetadata
  protectedRenderTargets : List ImageMetadata
deriving DecidableEq

/-- The slice of `DisplayInfo` the compositor reads: pixel dimensions. -/
structure DisplayInfo where
  dimX : Nat
  dimY : Nat
deriving DecidableEq

/-- `DisplayCompositor::ApplyConfigInfo`: a pending applied configuration. -/
structure ApplyConfigInfo where
  configStamp : Nat
  frameNumber : Nat
deriving DecidableEq

/-- Color-conversion data (3x3 coefficients plus pre/post offsets). -/
structure CCData where
  coefficients : List ℚ
  preoffsets : List ℚ
  postoffsets : List ℚ
deriving DecidableEq

/-- Modelled from the spec: the `ColorConversionStateMachine` implementation is
outside this source file; only the projection the compositor observes is
modelled, namely the result of `GetDataToApply()` and of
`GpuRequiresDisplayClearing()`. -/
structure CCStateMachine where
  dataToApply : Option CCData
  gpuRequiresClearing : Bool
deriving DecidableEq

/-- The identity color-conversion coefficients (`kDefaultColorConversionCoefficients`). -/
def ccIdentityCoefficients : List ℚ := [1, 0, 0, 0, 1, 0, 0, 0, 1]

/-- The zero color-conversion offsets (`kDefaultColorConversionOffsets`). -/
def ccZeroOffsets : List ℚ := [0, 0, 0]

/-- Whether a `CCData` is the identity ("cleared") state. -/
def ccIsIdentity (d : CCData) : Bool :=
  d.coefficients = ccIdentityCoefficients && d.preoffsets = ccZeroOffsets &&
    d.postoffsets = ccZeroOffsets

/-- Modelled from the spec: `ColorConversionStateMachine::DisplayCleared()` —
after the GPU path pushes an identity matrix to the display no further
clearing is required. -/
def ccDisplayCleared (c : CCStateMachine) : CCStateMachine :=
  { c with gpuRequiresClearing := false }

/-- Modelled from the spec: `ColorConversionStateMachine::SetApplyConfigSucceeded()`
— the pending (Dirty) data counts as applied to the display, so
`GetDataToApply` subsequently returns none and, if the applied matrix was not
the identity, a later GPU-path frame must first clear the display. -/
def ccSetApplyConfigSucceeded (c : CCStateMachine) : CCStateMachine :=
  { dataToApply := none,
    gpuRequiresClearing :=
      c.gpuRequiresClearing ||
        (match c.dataToApply with
         | some d => !ccIsIdentity d
         | none => false) }

/-- Calls made to the external collaborators (renderer / display controller);
the state keeps a log of them so that claims about which calls are or are not
made can be stated. -/
inductive Op where
  | rendererImportCollection (collectionId : Nat)
  | rendererReleaseCollection (collectionId : Nat)
  | rendererImportImage (imageId : Nat)
  | rendererReleaseImage (imageId : Nat)
  | rendererRender (targetImageId : Nat) (applyCC : Bool)
  | dcImportCollection (collectionId : Nat)
  | dcReleaseCollection (collectionId : Nat)
  | dcImportImage (imageId : Nat)
  | dcReleaseImage (imageId : Nat)
  | dcCloseToken
  | dcSetDisplayLayers (displayId : Nat) (layers : List Nat)
  | dcSetLayerImage (layerId : Nat) (imageId : Nat) (waitId : Nat) (signalId : Nat)
  | dcSetLayerColorConfig (layerId : Nat) (payload : List (Option Nat))
  | dcSetDisplayColorConversion (displayId : Nat)
  | dcCheckConfig (discard : Bool)
  | dcApplyConfig
deriving DecidableEq

/-- The mutable state of a `DisplayCompositor` instance (the fields of the
class that the embedded operations read or write), plus the call log. -/
structure CompositorState where
  imageEventMap : List (Nat × ImageEventData)
  pendingImagesInConfig : List Nat
  pendingApplyConfigs : List ApplyConfigInfo
  lastPresentedConfigStamp : Option Nat
  bufferCollectionSupportsDisplay : List (Nat × Bool)
  bufferCollectionPixelFormat : List (Nat × PixelFormatType)
  displayBufferCollectionPtrs : List (Nat × Unit)
  displayEngineDataMap : List (Nat × DisplayEngineData)
  displayInfoMap : List (Nat × DisplayInfo)
  cc : CCStateMachine
  nextEventId : Nat
  ops : List Op
deriving DecidableEq

/-- A fresh compositor state (all registries empty). -/
def emptyState : CompositorState :=
  { imageEventMap := []
    pendingImagesInConfig := []
    pendingApplyConfigs := []
    lastPresentedConfigStamp := none
    bufferCollectionSupportsDisplay := []
    bufferCollectionPixelFormat := []
    displayBufferCollectionPtrs := []
    displayEngineDataMap := []
    displayInfoMap := []
    cc := { dataToApply := none, gpuRequiresClearing := false }
    nextEventId := 0
    ops := [] }

/-- Drain helper for `OnVsync`: finds the first pending entry whose stamp
matches (as `std::find_if` does) and splits the FIFO into the drained prefix
(up to and including the match) and the remainder. -/
def drainUpTo : List ApplyConfigInfo → Nat → Option (List ApplyConfigInfo × List ApplyConfigInfo)
  | [], _ => none
  | e :: rest, stamp =>
      if e.configStamp = stamp then some ([e], rest)
      else
        match drainUpTo rest stamp with
        | none => none
        | some (d, r) => some (e :: d, r)

/-- `DisplayCompositor::OnVsync`: ignore a duplicate of the last presented
stamp; ignore a stamp that matches no pending applied config; otherwise drain
the FIFO up to and including the match, reporting
`release_fence_manager_.OnVsync(frame_number, timestamp)` for each drained
entry (returned as the second component, in FIFO order) and record the last
presented stamp. -/
def OnVsync (s : CompositorState) (timestamp stamp : Nat) :
    CompositorState × List (Nat × Nat) :=
  if s.lastPresentedConfigStamp = some stamp then (s, [])
  else
    match drainUpTo s.pendingApplyConfigs stamp with
    | none => (s, [])
    | some (d, r) =>
        ({ s with pendingApplyConfigs := r, lastPresentedConfigStamp := some stamp },
         d.map (fun e => (e.frameNumber, timestamp)))

theorem drainUpTo_eq_none (l : List ApplyConfigInfo) (stamp : Nat)
    (h : stamp ∉ l.map ApplyConfigInfo.configStamp) : drainUpTo l stamp = none := by
  induction l with
  | nil => rfl
  | cons e rest ih =>
      simp only [List.map_cons, List.mem_cons, not_or] at h
      have he : e.configStamp ≠ stamp := fun hc => h.1 hc.symm
      simp [drainUpTo, he, ih h.2]

theorem drainUpTo_split (pre : List ApplyConfigInfo) (e : ApplyConfigInfo)
    (post : List ApplyConfigInfo) (stamp : Nat) (he : e.configStamp = stamp)
    (hpre : stamp ∉ pre.map ApplyConfigInfo.configStamp) :
    drainUpTo (pre ++ e :: post) stamp = some (pre ++ [e], post) := by
  induction pre with
  | nil => simp [drainUpTo, he]
  | cons p rest ih =>
      simp only [List.map_cons, List.mem_cons, not_or] at hpre
      have hp : p.configStamp ≠ stamp := fun hc => hpre.1 hc.symm
      simp [drainUpTo, hp, ih hpre.2]

/-- C2: for every call to `OnVsync(timestamp, stamp)`: a stamp equal to the
last presented stamp is ignored; a stamp matching no entry of the
pending-apply FIFO does nothing (state unchanged, no release-fence-manager
callbacks); otherwise the FIFO is drained from the head up to and including
the first matching entry, the release-fence manager's `OnVsync(frame_number,
timestamp)` is invoked for each drained entry in FIFO order, and the last
presented stamp becomes the received stamp. -/
theorem C2_onVsync_fifo_drain :
    ∀ (s : CompositorState) (t stamp : Nat),
      (s.lastPresentedConfigStamp = some stamp → OnVsync s t stamp = (s, []))
      ∧ (stamp ∉ s.pendingApplyConfigs.map ApplyConfigInfo.configStamp →
          OnVsync s t stamp = (s, []))
      ∧ (∀ (pre : List ApplyConfigInfo) (e : ApplyConfigInfo) (post : List ApplyConfigInfo),
          s.lastPresentedConfigStamp ≠ some stamp →
          s.pendingApplyConfigs = pre ++ e :: post →
          e.configStamp = stamp →
          stamp ∉ pre.map ApplyConfigInfo.configStamp →
          OnVsync s t stamp =
            ({ s with pendingApplyConfigs := post, lastPresentedConfigStamp := some stamp },
             (pre ++ [e]).map (fun a => (a.frameNumber, t)))) := by
  intro s t stamp
  refine ⟨?_, ?_, ?_⟩
  · intro h
    simp [OnVsync, h]
  · intro h
    by_cases hl : s.lastPresentedConfigStamp = some stamp
    · simp [OnVsync, hl]
    · simp [OnVsync, hl, drainUpTo_eq_none _ _ h]
  · intro pre e post hl hsplit he hpre
    simp [OnVsync, hl, hsplit, drainUpTo_split pre e post stamp he hpre]

/-- Witness for C2 at a concrete three-entry FIFO: the vsync for stamp `6`
drains the first two entries in order and updates the last presented stamp;
a vsync for the foreign stamp `99` changes nothing. -/
theorem C2_onVsync_fifo_drain_witness :
    (OnVsync
        { emptyState with
            pendingApplyConfigs := [⟨5, 1⟩, ⟨6, 2⟩, ⟨7, 3⟩] } 100 6 =
      ({ emptyState with
          pendingApplyConfigs := [⟨7, 3⟩],
          lastPresentedConfigStamp := some 6 }, [(1, 100), (2, 100)]))
    ∧ (OnVsync
        { emptyState with
            pendingApplyConfigs := [⟨5, 1⟩, ⟨6, 2⟩, ⟨7, 3⟩] } 100 99 =
      ({ emptyState with
          pendingApplyConfigs := [⟨5, 1⟩, ⟨6, 2⟩, ⟨7, 3⟩] }, [])) := by
  constructor
  · exact (C2_onVsync_fifo_drain
        { emptyState with pendingApplyConfigs := [⟨5, 1⟩, ⟨6, 2⟩, ⟨7, 3⟩] } 100 6).2.2
      [⟨5, 1⟩] ⟨6, 2⟩ [⟨7, 3⟩] (by decide) (by decide) (by decide) (by decide)
  · exact (C2_onVsync_fifo_drain
        { emptyState with pendingApplyConfigs := [⟨5, 1⟩, ⟨6, 2⟩, ⟨7, 3⟩] } 100 99).2.1
      (by decide)

/-- `allocation::kInvalidImageId` (and `allocation::kInvalidId`). -/
def kInvalidImageId : Nat := 0

/-- The C++ conversion `static_cast` of a float to `uint8_t`: the value is
truncated toward zero; if the truncated value is not representable in
`uint8_t` the behaviour is undefined, modelled as `none`. -/
def cxxFloatToUint8 (q : ℚ) : Option Nat :=
  let t : ℤ := if 0 ≤ q then ⌊q⌋ else ⌈q⌉
  if 0 ≤ t ∧ t < 256 then some t.toNat else none

/-- `clamp(f, 0, 1)` as used by the specification's quantization law. -/
def qclamp (f : ℚ) : ℚ := max 0 (min f 1)

/-- The specification's quantization law `quantize(f) = floor(255 * clamp(f,0,1))`.
This definition follows the spec's words, to be compared against the
quantization the source performs. -/
def quantizeSpec (f : ℚ) : ℤ := ⌊255 * qclamp f⌋

/-- The four multiply-color channels of an image, in payload order. -/
def multiplyColorList (img : ImageMetadata) : List ℚ :=
  [img.multiplyColor0, img.multiplyColor1, img.multiplyColor2, img.multiplyColor3]

/-- The 4-byte solid-color payload built by `DisplayCompositor::ApplyLayerColor`:
each channel is `static_cast` of `255 * multiply_color[i]` (no clamping
in the source). -/
def ApplyLayerColorPayload (img : ImageMetadata) : List (Option Nat) :=
  (multiplyColorList img).map (fun f => cxxFloatToUint8 (255 * f))

/-- `DisplayCompositor::ApplyLayerColor`: emits `SetLayerColorConfig` with the
quantized payload. (The position/alpha calls that would follow are disabled by
`#if 0` in the source and are not modelled; the rectangle argument is unused.) -/
def ApplyLayerColor (s : CompositorState) (layerId : Nat) (_rect : ImageRect)
    (img : ImageMetadata) : CompositorState :=
  { s with ops := s.ops ++ [Op.dcSetLayerColorConfig layerId (ApplyLayerColorPayload img)] }

theorem cxxFloatToUint8_unit_interval (f : ℚ) (h0 : 0 ≤ f) (h1 : f ≤ 1) :
    cxxFloatToUint8 (255 * f) = some (⌊255 * f⌋).toNat := by
  have hq0 : (0 : ℚ) ≤ 255 * f := by positivity
  have hfl0 : (0 : ℤ) ≤ ⌊(255 : ℚ) * f⌋ := Int.floor_nonneg.mpr hq0
  have hle : (255 : ℚ) * f ≤ 255 := by nlinarith
  have hfl255 : ⌊(255 : ℚ) * f⌋ ≤ 255 := by
    have := Int.floor_le_floor hle
    simpa using this
  have hlt : ⌊(255 : ℚ) * f⌋ < 256 := lt_of_le_of_lt hfl255 (by norm_num)
  simp [cxxFloatToUint8, hq0, hfl0, hlt]

theorem quantizeSpec_unit_interval (f : ℚ) (h0 : 0 ≤ f) (h1 : f ≤ 1) :
    quantizeSpec f = ⌊255 * f⌋ := by
  have : qclamp f = f := by
    simp [qclamp, min_eq_left h1, max_eq_right h0]
  simp [quantizeSpec, this]

/-- C9 (amended): for multiply-color components inside `[0, 1]` the payload
byte agrees with the spec's `floor(255 * clamp(f,0,1))`; the source performs
no clamping, so the agreement holds only on the unit interval. -/
theorem C9_quantization_unit_interval :
    ∀ (img : ImageMetadata),
      (∀ f ∈ multiplyColorList img, 0 ≤ f ∧ f ≤ 1) →
      ApplyLayerColorPayload img
        = (multiplyColorList img).map (fun f => some (quantizeSpec f).toNat) := by
  intro img h
  unfold ApplyLayerColorPayload
  refine List.map_congr_left ?_
  intro f hf
  obtain ⟨h0, h1⟩ := h f hf
  rw [cxxFloatToUint8_unit_interval f h0 h1, quantizeSpec_unit_interval f h0 h1]

theorem quantizeSpec_zero : quantizeSpec 0 = 0 := by
  have h : qclamp 0 = 0 := by norm_num [qclamp]
  rw [quantizeSpec, h]
  norm_num

theorem quantizeSpec_one : quantizeSpec 1 = 255 := by
  have h : qclamp 1 = 1 := by norm_num [qclamp]
  rw [quantizeSpec, h]
  norm_num

/-- Witness for C9 (amended) at the concrete multiply color `(1, 0, 1, 1)`:
the payload is `[255, 0, 255, 255]`. -/
theorem C9_quantization_unit_interval_witness :
    (∀ f ∈ multiplyColorList ⟨0, 0, 0, 1, 1, 1, 0, 1, 1⟩, 0 ≤ f ∧ f ≤ 1)
    ∧ ApplyLayerColorPayload ⟨0, 0, 0, 1, 1, 1, 0, 1, 1⟩
        = [some 255, some 0, some 255, some 255] := by
  have hmem : ∀ f ∈ multiplyColorList ⟨0, 0, 0, 1, 1, 1, 0, 1, 1⟩, 0 ≤ f ∧ f ≤ 1 := by
    simp [multiplyColorList]
  refine ⟨hmem, ?_⟩
  rw [C9_quantization_unit_interval ⟨0, 0, 0, 1, 1, 1, 0, 1, 1⟩ hmem]
  simp [multiplyColorList, quantizeSpec_zero, quantizeSpec_one]

theorem cxxFloatToUint8_at_two : cxxFloatToUint8 (255 * (2 : ℚ)) = none := by
  have h510 : (255 : ℚ) * 2 = 510 := by norm_num
  rw [h510]
  decide

theorem cxxFloatToUint8_at_zero : cxxFloatToUint8 (255 * (0 : ℚ)) = some 0 := by
  have h0 : (255 : ℚ) * 0 = 0 := by norm_num
  rw [h0]
  decide

theorem cxxFloatToUint8_at_one : cxxFloatToUint8 (255 * (1 : ℚ)) = some 255 := by
  have h255 : (255 : ℚ) * 1 = 255 := by norm_num
  rw [h255]
  decide

/-- Counterexample for C9 as stated: at the out-of-range component `f = 2` the
spec's quantization yields `255`, but the source computes
`static_cast` of `510`, which is not `255` (the conversion is undefined
behaviour, modelled `none`): components outside `[0, 1]` are not clamped. -/
theorem C9_counterexample :
    cxxFloatToUint8 (255 * (2 : ℚ)) = none
    ∧ (quantizeSpec 2).toNat = 255
    ∧ ApplyLayerColorPayload ⟨0, 0, 0, 1, 1, 2, 0, 0, 1⟩
        = [none, some 0, some 0, some 255] := by
  have hq2 : quantizeSpec 2 = 255 := by
    have h : qclamp 2 = 1 := by norm_num [qclamp]
    rw [quantizeSpec, h]
    norm_num
  refine ⟨cxxFloatToUint8_at_two, by rw [hq2]; rfl, ?_⟩
  simp only [ApplyLayerColorPayload, multiplyColorList, List.map]
  rw [cxxFloatToUint8_at_two, cxxFloatToUint8_at_zero, cxxFloatToUint8_at_one]

/-- `BufferCollectionImportMode`. -/
inductive BufferCollectionImportMode where
  | rendererOnly
  | enforceDisplayConstraints
  | attemptDisplayConstraints
deriving DecidableEq

/-- Results of the external calls made during `ImportBufferCollection`. -/
structure ImportOracle where
  duplicateOk : Bool
  rendererImportOk : Bool
  attachTokenOk : Bool
  emptyConstraintsOk : Bool
  displayImportOk : Bool

/-- The display leg shared by the `EnforceDisplayConstraints` and
`AttemptDisplayConstraints` arms of `DisplayCompositor::ImportBufferCollection`:
bind an empty-constraints observation copy of the display token (recorded in
`display_buffer_collection_ptrs_`), then import the collection into the
display controller. Note that neither failure path releases the
renderer-side import. -/
def displayLegOfImportCollection (o : ImportOracle) (s : CompositorState)
    (collectionId : Nat) : CompositorState × Bool :=
  if !o.emptyConstraintsOk then (s, false)
  else
    let s1 := { s with
      displayBufferCollectionPtrs := ainsert s.displayBufferCollectionPtrs collectionId (),
      ops := s.ops ++ [Op.dcImportCollection collectionId] }
    (s1, o.displayImportOk)

/-- `DisplayCompositor::ImportBufferCollection`: duplicate the client token,
hand one copy to the renderer, then treat the display copy according to
the import mode (`RendererOnly`: close it immediately; `EnforceDisplayConstraints`:
pass it through; `AttemptDisplayConstraints`: convert it to an attach token
first). -/
def ImportBufferCollection (mode : BufferCollectionImportMode) (o : ImportOracle)
    (s : CompositorState) (collectionId : Nat) : CompositorState × Bool :=
  if !o.duplicateOk then (s, false)
  else
    let s1 := { s with ops := s.ops ++ [Op.rendererImportCollection collectionId] }
    if !o.rendererImportOk then (s1, false)
    else
      match mode with
      | .rendererOnly =>
          ({ s1 with ops := s1.ops ++ [Op.dcCloseToken] }, true)
      | .enforceDisplayConstraints =>
          displayLegOfImportCollection o s1 collectionId
      | .attemptDisplayConstraints =>
          if !o.attachTokenOk then (s1, false)
          else displayLegOfImportCollection o s1 collectionId

/-- `DisplayCompositor::ReleaseBufferCollection`: release from the display
controller and the renderer, and erase the observation pointer and the
display-support entry. (The source does not erase
`buffer_collection_pixel_format_`.) -/
def ReleaseBufferCollection (s : CompositorState) (collectionId : Nat) : CompositorState :=
  { s with
    ops := s.ops ++ [Op.dcReleaseCollection collectionId,
                     Op.rendererReleaseCollection collectionId],
    displayBufferCollectionPtrs := aerase s.displayBufferCollectionPtrs collectionId,
    bufferCollectionSupportsDisplay := aerase s.bufferCollectionSupportsDisplay collectionId }

/-- `IsValidBufferImage` from the anonymous namespace. -/
def IsValidBufferImage (m : ImageMetadata) : Bool :=
  m.identifier != 0 && m.collectionId != kInvalidImageId && m.width != 0 && m.height != 0

/-- The YUV filter (`IsYUV`). -/
def IsYUV (f : PixelFormatType) : Bool :=
  f = PixelFormatType.nv12 || f = PixelFormatType.i420

/-- `DetermineDisplaySupportFor`: the probe result (`none` if the allocation
check failed, otherwise the allocated pixel format) filtered through the YUV
rejection. -/
def DetermineDisplaySupportFor (probe : Option PixelFormatType) : Option PixelFormatType :=
  match probe with
  | none => none
  | some f => if IsYUV f then none else some f

/-- Results of the external calls made during `ImportBufferImage`. -/
structure ImageImportOracle where
  rendererImportOk : Bool
  probe : Option PixelFormatType
  displayImportImageOk : Bool

/-- The first-image display-support probe inside
`DisplayCompositor::ImportBufferImage`: consume the observation pointer
(`TakeDisplayBufferCollectionPtr`), record whether the collection supports
display, and cache the negotiated pixel format when it does. -/
def probeDisplaySupport (o : ImageImportOracle) (s : CompositorState)
    (cid : Nat) : CompositorState :=
  let support := DetermineDisplaySupportFor o.probe
  let s2a := { s with
    displayBufferCollectionPtrs := aerase s.displayBufferCollectionPtrs cid,
    bufferCollectionSupportsDisplay :=
      ainsert s.bufferCollectionSupportsDisplay cid support.isSome }
  match support with
  | some pf =>
      { s2a with bufferCollectionPixelFormat :=
          ainsert s2a.bufferCollectionPixelFormat cid pf }
  | none => s2a

/-- `DisplayCompositor::ImportBufferImage`: validate the metadata, import into
the renderer, handle the RendererOnly early exit, probe display support on the
first image of a collection, and import into the display controller when the
collection is display-supported. Neither failure path releases the
renderer-side import. -/
def ImportBufferImage (mode : BufferCollectionImportMode) (o : ImageImportOracle)
    (s : CompositorState) (md : ImageMetadata) : CompositorState × Bool :=
  if !IsValidBufferImage md then (s, false)
  else
    let s1 := { s with ops := s.ops ++ [Op.rendererImportImage md.identifier] }
    if !o.rendererImportOk then (s1, false)
    else
      let cid := md.collectionId
      let alreadySet := (alookup s1.bufferCollectionSupportsDisplay cid).isSome
      if mode = .rendererOnly &&
          (!alreadySet || !((alookup s1.bufferCollectionSupportsDisplay cid).getD false)) then
        ({ s1 with bufferCollectionSupportsDisplay :=
              ainsert s1.bufferCollectionSupportsDisplay cid false }, true)
      else
        let s2 := if !alreadySet then probeDisplaySupport o s1 cid else s1
        if !((alookup s2.bufferCollectionSupportsDisplay cid).getD false) then
          match mode with
          | .attemptDisplayConstraints => (s2, true)
          | .enforceDisplayConstraints => (s2, false)
          | .rendererOnly => (s2, false)
        else
          let s3 := { s2 with ops := s2.ops ++ [Op.dcImportImage md.identifier] }
          (s3, o.displayImportImageOk)

theorem probeDisplaySupport_ops (o : ImageImportOracle) (s : CompositorState)
    (cid : Nat) : (probeDisplaySupport o s cid).ops = s.ops := by
  cases h : DetermineDisplaySupportFor o.probe <;> simp [probeDisplaySupport, h]

/-- `DisplayCompositor::ReleaseBufferImage`: release from the display
controller and the renderer, and drop the image's fence entry. -/
def ReleaseBufferImage (s : CompositorState) (imageId : Nat) : CompositorState :=
  { s with
    ops := s.ops ++ [Op.dcReleaseImage imageId, Op.rendererReleaseImage imageId],
    imageEventMap := aerase s.imageEventMap imageId }

/-- Whether an `Op` is a release of collection/image state on the renderer or
display side. -/
def isReleaseOp : Op → Bool
  | Op.rendererReleaseCollection _ => true
  | Op.rendererReleaseImage _ => true
  | Op.dcReleaseCollection _ => true
  | Op.dcReleaseImage _ => true
  | _ => false

/-- C6 (amended): `ReleaseBufferCollection` issues the display-controller and
renderer release calls and drops the display-support flag and the observation
collection pointer, but it does not drop the negotiated pixel format: the
`buffer_collection_pixel_format_` entry for the collection id is retained
unchanged. -/
theorem C6_release_collection_partial_drop :
    ∀ (s : CompositorState) (cid : Nat),
      alookup (ReleaseBufferCollection s cid).bufferCollectionSupportsDisplay cid = none
      ∧ alookup (ReleaseBufferCollection s cid).displayBufferCollectionPtrs cid = none
      ∧ (ReleaseBufferCollection s cid).bufferCollectionPixelFormat
          = s.bufferCollectionPixelFormat
      ∧ (ReleaseBufferCollection s cid).ops
          = s.ops ++ [Op.dcReleaseCollection cid, Op.rendererReleaseCollection cid] := by
  intro s cid
  exact ⟨alookup_aerase_self _ cid, alookup_aerase_self _ cid, rfl, rfl⟩

/-- Counterexample for C6 as stated: releasing collection `1` from a state
whose pixel-format cache holds an entry for it leaves the negotiated pixel
format observable, so not all cached per-collection state is dropped. -/
theorem C6_counterexample :
    alookup (ReleaseBufferCollection
        { emptyState with
            bufferCollectionSupportsDisplay := [(1, true)],
            bufferCollectionPixelFormat := [(1, PixelFormatType.bgra32)],
            displayBufferCollectionPtrs := [(1, ())] } 1).bufferCollectionPixelFormat 1
      = some PixelFormatType.bgra32 := by
  decide

/-- C7 (amended): in `RendererOnly` mode a successful `ImportBufferCollection`
closes the display copy of the token immediately and records no
display-support state for the collection; the collection is marked
`display-supported = no` by the first `ImportBufferImage` for that collection,
which succeeds and returns to the renderer-only path. -/
theorem C7_rendererOnly_support_set_on_image_import :
    ∀ (o : ImportOracle) (oi : ImageImportOracle) (s : CompositorState)
      (md : ImageMetadata),
      o.duplicateOk = true → o.rendererImportOk = true →
      oi.rendererImportOk = true →
      IsValidBufferImage md = true →
      alookup s.bufferCollectionSupportsDisplay md.collectionId = none →
      (ImportBufferCollection .rendererOnly o s md.collectionId
          = ({ s with ops := s.ops ++ [Op.rendererImportCollection md.collectionId,
                                       Op.dcCloseToken] }, true))
      ∧ alookup (ImportBufferCollection .rendererOnly o s md.collectionId).1.bufferCollectionSupportsDisplay
            md.collectionId = none
      ∧ (ImportBufferImage .rendererOnly oi
            (ImportBufferCollection .rendererOnly o s md.collectionId).1 md).2 = true
      ∧ alookup (ImportBufferImage .rendererOnly oi
            (ImportBufferCollection .rendererOnly o s md.collectionId).1 md).1.bufferCollectionSupportsDisplay
            md.collectionId = some false := by
  intro o oi s md hdup hrok hirok hvalid hnone
  have himp : ImportBufferCollection .rendererOnly o s md.collectionId
      = ({ s with ops := s.ops ++ [Op.rendererImportCollection md.collectionId,
                                   Op.dcCloseToken] }, true) := by
    simp [ImportBufferCollection, hdup, hrok]
  refine ⟨himp, ?_, ?_, ?_⟩
  · rw [himp]
    exact hnone
  · rw [himp]
    simp [ImportBufferImage, hvalid, hirok, hnone]
  · rw [himp]
    simp only [ImportBufferImage, hvalid, hirok, hnone]
    simp [hnone, alookup_ainsert_self]

/-- Witness for C7 (amended) at a fresh state with all-ok oracles. -/
theorem C7_rendererOnly_support_set_on_image_import_witness :
    ((⟨true, true, true, true, true⟩ : ImportOracle).duplicateOk = true)
    ∧ ((⟨true, true, true, true, true⟩ : ImportOracle).rendererImportOk = true)
    ∧ ((⟨true, some PixelFormatType.bgra32, true⟩ : ImageImportOracle).rendererImportOk = true)
    ∧ IsValidBufferImage ⟨7, 1, 0, 16, 16, 1, 1, 1, 1⟩ = true
    ∧ alookup emptyState.bufferCollectionSupportsDisplay 1 = none
    ∧ alookup (ImportBufferCollection .rendererOnly ⟨true, true, true, true, true⟩
          emptyState 1).1.bufferCollectionSupportsDisplay 1 = none
    ∧ alookup (ImportBufferImage .rendererOnly ⟨true, some PixelFormatType.bgra32, true⟩
          (ImportBufferCollection .rendererOnly ⟨true, true, true, true, true⟩
            emptyState 1).1 ⟨7, 1, 0, 16, 16, 1, 1, 1, 1⟩).1.bufferCollectionSupportsDisplay 1
        = some false := by
  have h := C7_rendererOnly_support_set_on_image_import
      ⟨true, true, true, true, true⟩ ⟨true, some PixelFormatType.bgra32, true⟩
      emptyState ⟨7, 1, 0, 16, 16, 1, 1, 1, 1⟩ rfl rfl rfl (by decide) (by decide)
  exact ⟨rfl, rfl, rfl, by decide, by decide, h.2.1, h.2.2.2⟩

/-- Counterexample for C7 as stated: immediately after a successful
`RendererOnly` `ImportBufferCollection` (before any image import) the
display-support state of the collection is absent, not `no`. -/
theorem C7_counterexample :
    (ImportBufferCollection .rendererOnly ⟨true, true, true, true, true⟩ emptyState 1).2 = true
    ∧ alookup (ImportBufferCollection .rendererOnly ⟨true, true, true, true, true⟩
          emptyState 1).1.bufferCollectionSupportsDisplay 1 = none
    ∧ ¬ (alookup (ImportBufferCollection .rendererOnly ⟨true, true, true, true, true⟩
          emptyState 1).1.bufferCollectionSupportsDisplay 1 = some false) := by
  refine ⟨by decide, by decide, by decide⟩

/-- C5 (amended): when an import fails partway — in particular when the
renderer-side import succeeded but the display leg failed in
`EnforceDisplayConstraints` mode — no rollback is performed: the failed
`ImportBufferCollection` or `ImportBufferImage` call returns failure having
issued no release call on either the renderer or the display side. -/
theorem C5_import_failure_no_rollback :
    (∀ (mode : BufferCollectionImportMode) (o : ImportOracle) (s : CompositorState)
        (cid : Nat),
      (ImportBufferCollection mode o s cid).2 = false →
      ∃ t, (ImportBufferCollection mode o s cid).1.ops = s.ops ++ t
            ∧ ∀ op ∈ t, isReleaseOp op = false)
    ∧ (∀ (mode : BufferCollectionImportMode) (oi : ImageImportOracle)
        (s : CompositorState) (md : ImageMetadata),
      (ImportBufferImage mode oi s md).2 = false →
      ∃ t, (ImportBufferImage mode oi s md).1.ops = s.ops ++ t
            ∧ ∀ op ∈ t, isReleaseOp op = false) := by
  constructor
  · intro mode o s cid hfail
    by_cases hdup : o.duplicateOk
    · by_cases hrok : o.rendererImportOk
      · cases mode with
        | rendererOnly =>
            exfalso
            simp [ImportBufferCollection, hdup, hrok] at hfail
        | enforceDisplayConstraints =>
            by_cases hec : o.emptyConstraintsOk
            · refine ⟨[Op.rendererImportCollection cid, Op.dcImportCollection cid], ?_, ?_⟩
              · simp [ImportBufferCollection, displayLegOfImportCollection, hdup, hrok, hec]
              · intro op hop
                simp only [List.mem_cons, List.mem_singleton] at hop
                rcases hop with h | h | h
                · rw [h]; rfl
                · rw [h]; rfl
                · cases h
            · refine ⟨[Op.rendererImportCollection cid], ?_, ?_⟩
              · simp [ImportBufferCollection, displayLegOfImportCollection, hdup, hrok, hec]
              · intro op hop
                simp only [List.mem_singleton] at hop
                rw [hop]; rfl
        | attemptDisplayConstraints =>
            by_cases hat : o.attachTokenOk
            · by_cases hec : o.emptyConstraintsOk
              · refine ⟨[Op.rendererImportCollection cid, Op.dcImportCollection cid], ?_, ?_⟩
                · simp [ImportBufferCollection, displayLegOfImportCollection, hdup, hrok, hat, hec]
                · intro op hop
                  simp only [List.mem_cons, List.mem_singleton] at hop
                  rcases hop with h | h | h
                  · rw [h]; rfl
                  · rw [h]; rfl
                  · cases h
              · refine ⟨[Op.rendererImportCollection cid], ?_, ?_⟩
                · simp [ImportBufferCollection, displayLegOfImportCollection, hdup, hrok, hat, hec]
                · intro op hop
                  simp only [List.mem_singleton] at hop
                  rw [hop]; rfl
            · refine ⟨[Op.rendererImportCollection cid], ?_, ?_⟩
              · simp [ImportBufferCollection, hdup, hrok, hat]
              · intro op hop
                simp only [List.mem_singleton] at hop
                rw [hop]; rfl
      · refine ⟨[Op.rendererImportCollection cid], ?_, ?_⟩
        · simp [ImportBufferCollection, hdup, hrok]
        · intro op hop
          simp only [List.mem_singleton] at hop
          rw [hop]; rfl
    · refine ⟨[], by simp [ImportBufferCollection, hdup], by intro op hop; cases hop⟩
  · intro mode oi s md hfail
    by_cases hval : IsValidBufferImage md
    · by_cases hrok : oi.rendererImportOk
      · -- the remaining failure exits emit at most the renderer and display
        -- import calls, never a release
        have hops : (ImportBufferImage mode oi s md).1.ops
            = s.ops ++ [Op.rendererImportImage md.identifier]
            ∨ (ImportBufferImage mode oi s md).1.ops
            = s.ops ++ [Op.rendererImportImage md.identifier, Op.dcImportImage md.identifier] := by
          have hps := probeDisplaySupport_ops oi
              { s with ops := s.ops ++ [Op.rendererImportImage md.identifier] } md.collectionId
          simp only [ImportBufferImage, hval, hrok]
          simp only [Bool.not_true, Bool.false_eq_true, if_false, ite_false]
          split
          · left; rfl
          · by_cases halready : (alookup s.bufferCollectionSupportsDisplay md.collectionId).isSome
            · simp only [halready, Bool.not_true, Bool.false_eq_true, if_false, ite_false]
              split
              · split <;> left <;> rfl
              · right; simp
            · simp only [halready, Bool.not_false, if_true, ite_true]
              split
              · split <;> left <;> simpa using hps
              · right
                simp only [List.append_assoc, List.cons_append, List.nil_append]
                rw [hps]
                simp
        rcases hops with h | h
        · refine ⟨[Op.rendererImportImage md.identifier], h, ?_⟩
          intro op hop
          simp only [List.mem_singleton] at hop
          rw [hop]; rfl
        · refine ⟨[Op.rendererImportImage md.identifier, Op.dcImportImage md.identifier], h, ?_⟩
          intro op hop
          simp only [List.mem_cons, List.mem_singleton] at hop
          rcases hop with h0 | h0 | h0
          · rw [h0]; rfl
          · rw [h0]; rfl
          · cases h0
      · refine ⟨[Op.rendererImportImage md.identifier], ?_, ?_⟩
        · simp [ImportBufferImage, hval, hrok]
        · intro op hop
          simp only [List.mem_singleton] at hop
          rw [hop]; rfl
    · refine ⟨[], by simp [ImportBufferImage, hval], by intro op hop; cases hop⟩

/-- Witness for C5 (amended): a concrete `EnforceDisplayConstraints` import in
which the renderer leg succeeds and the display-controller import fails:
the call returns failure and its op log gained no release operation. -/
theorem C5_import_failure_no_rollback_witness :
    ((ImportBufferCollection .enforceDisplayConstraints ⟨true, true, true, true, false⟩
        emptyState 1).2 = false)
    ∧ (∃ t, (ImportBufferCollection .enforceDisplayConstraints ⟨true, true, true, true, false⟩
          emptyState 1).1.ops = emptyState.ops ++ t ∧ ∀ op ∈ t, isReleaseOp op = false) := by
  refine ⟨by decide, ?_⟩
  exact C5_import_failure_no_rollback.1 .enforceDisplayConstraints
      ⟨true, true, true, true, false⟩ emptyState 1 (by decide)

/-- Counterexample for C5 as stated: in the same concrete failing
`EnforceDisplayConstraints` import the renderer-side import succeeded, the
display leg failed, and yet the operation log shows that nothing was released
on either side before returning failure. -/
theorem C5_counterexample :
    ((ImportBufferCollection .enforceDisplayConstraints ⟨true, true, true, true, false⟩
        emptyState 1).2 = false)
    ∧ Op.rendererImportCollection 1 ∈ (ImportBufferCollection .enforceDisplayConstraints
          ⟨true, true, true, true, false⟩ emptyState 1).1.ops
    ∧ Op.rendererReleaseCollection 1 ∉ (ImportBufferCollection .enforceDisplayConstraints
          ⟨true, true, true, true, false⟩ emptyState 1).1.ops
    ∧ Op.dcReleaseCollection 1 ∉ (ImportBufferCollection .enforceDisplayConstraints
          ⟨true, true, true, true, false⟩ emptyState 1).1.ops := by
  refine ⟨by decide, by decide, by decide, by decide⟩

/-- The C++ `operator[]` read on `buffer_collection_supports_display_`:
returns the stored value, default-inserting `false` when the key is absent. -/
def mapBracketBool (m : List (Nat × Bool)) (k : Nat) : Bool × List (Nat × Bool) :=
  match alookup m k with
  | some v => (v, m)
  | none => (false, ainsert m k false)

/-- `DisplayCompositor::ApplyLayerImage`: sets the layer's primary config,
position, alpha and image. The geometry and alpha values are computed by
helpers (`DisplaySrcDstFrames::New`, `GetDisplayTransformFromOrientationAndFlip`,
`GetAlphaMode`) defined outside this source file; only the `SetLayerImage`
call, which carries the identifiers the claims are about, is logged. -/
def ApplyLayerImage (s : CompositorState) (layerId : Nat) (_rect : ImageRect)
    (image : ImageMetadata) (waitId signalId : Nat) : CompositorState :=
  { s with ops := s.ops ++ [Op.dcSetLayerImage layerId image.identifier waitId signalId] }

/-- The first loop of `DisplayCompositor::SetRenderDataOnDisplay`: for each
image of the frame, create a pre-signaled `ImageEventData` on first sight
(`NewImageEventData`), otherwise test the signal event without waiting and
fail if it is not signaled; every visited image id is appended to
`pending_images_in_config_`. On failure the partial updates made so far are
kept, exactly as in the source. -/
def recordFrameImages (s : CompositorState) : List ImageMetadata → CompositorState × Bool
  | [] => (s, true)
  | img :: rest =>
      match alookup s.imageEventMap img.identifier with
      | none =>
          recordFrameImages
            { s with
                imageEventMap :=
                  ainsert s.imageEventMap img.identifier ⟨true, s.nextEventId⟩,
                nextEventId := s.nextEventId + 1,
                pendingImagesInConfig := s.pendingImagesInConfig ++ [img.identifier] }
            rest
      | some ev =>
          if ev.signalSignaled then
            recordFrameImages
              { s with pendingImagesInConfig :=
                  s.pendingImagesInConfig ++ [img.identifier] } rest
          else (s, false)

/-- The geometric acceptance condition for a solid-color entry in
`SetRenderDataOnDisplay`: the rectangle starts at the origin and its extents
equal the display dimensions (the source compares the float extents against
the `uint32_t` dimensions after a cast). -/
def rectCoversDisplay (rect : ImageRect) (dims : DisplayInfo) : Prop :=
  rect.originX = 0 ∧ rect.originY = 0 ∧
    rect.extentX = (dims.dimX : ℚ) ∧ rect.extentY = (dims.dimY : ℚ)

instance (rect : ImageRect) (dims : DisplayInfo) : Decidable (rectCoversDisplay rect dims) := by
  unfold rectCoversDisplay
  infer_instance

/-- The second loop of `DisplayCompositor::SetRenderDataOnDisplay`, with `i`
the running index: a normal image is applied to its layer iff its collection
is display-supported; an entry with the invalid sentinel id is a solid color
rectangle, accepted only at index 0 when its rectangle covers the display
exactly. -/
def applyFrameLayers (displayId : Nat) (layers : List Nat) (rects : List ImageRect) :
    CompositorState → List ImageMetadata → Nat → CompositorState × Bool
  | s, [], _ => (s, true)
  | s, img :: rest, i =>
      if img.identifier ≠ kInvalidImageId then
        let br := mapBracketBool s.bufferCollectionSupportsDisplay img.collectionId
        let s1 := { s with bufferCollectionSupportsDisplay := br.2 }
        if br.1 then
          let ev := (alookup s1.imageEventMap img.identifier).getD ⟨true, 0⟩
          let s2 := ApplyLayerImage s1 (layers.getD i 0) (rects.getD i ⟨0, 0, 0, 0⟩)
                      img 0 ev.signalId
          applyFrameLayers displayId layers rects s2 rest (i + 1)
        else (s1, false)
      else
        let rect := rects.getD i ⟨0, 0, 0, 0⟩
        let dims := (alookup s.displayInfoMap displayId).getD ⟨0, 0⟩
        if i = 0 ∧ rectCoversDisplay rect dims then
          let s1 := ApplyLayerColor s (layers.getD i 0) rect img
          applyFrameLayers displayId layers rects s1 rest (i + 1)
        else (s, false)

/-- `DisplayCompositor::SetRenderDataOnDisplay`: reject when the display has
fewer layers than the frame has images (a missing display engine entry, which
would throw in the source, is modelled as rejection); then run the image-event
loop and, if it passes, set the display layers and run the per-layer
application loop. -/
def SetRenderDataOnDisplay (s : CompositorState) (data : RenderData) :
    CompositorState × Bool :=
  let numImages := data.images.length
  match alookup s.displayEngineDataMap data.displayId with
  | none => (s, false)
  | some ed =>
      if ed.layers.length < numImages then (s, false)
      else
        let r1 := recordFrameImages s data.images
        if r1.2 then
          let s2 := { r1.1 with ops := r1.1.ops ++
              [Op.dcSetDisplayLayers data.displayId (ed.layers.take numImages)] }
          applyFrameLayers data.displayId ed.layers data.rectangles s2 data.images 0
        else r1

/-- The loop body of `DisplayCompositor::SetRenderDatasOnDisplay`: process each
display's render data in order, pushing the pending color-conversion data to
the display after each successful assignment; stop at the first failure. -/
def setRenderDatasLoop : CompositorState → List RenderData → CompositorState × Bool
  | s, [] => (s, true)
  | s, d :: rest =>
      let r := SetRenderDataOnDisplay s d
      if r.2 then
        let s2 :=
          match r.1.cc.dataToApply with
          | some _ =>
              { r.1 with ops := r.1.ops ++ [Op.dcSetDisplayColorConversion d.displayId] }
          | none => r.1
        setRenderDatasLoop s2 rest
      else r

/-- `DisplayCompositor::SetRenderDatasOnDisplay`: returns false immediately
when `kDisableDisplayComposition` is set (the toggle, a compile-time constant
defined outside this file, is passed as a parameter). -/
def SetRenderDatasOnDisplay (kDisableDisplayComposition : Bool) (s : CompositorState)
    (l : List RenderData) : CompositorState × Bool :=
  if kDisableDisplayComposition then (s, false)
  else setRenderDatasLoop s l

/-- `DisplayCompositor::DiscardConfig`: clear `pending_images_in_config_` and
issue `CheckConfig(discard = true)`. -/
def DiscardConfig (s : CompositorState) : CompositorState :=
  { s with pendingImagesInConfig := [],
           ops := s.ops ++ [Op.dcCheckConfig true] }

/-- The C++ `image_event_map_[id].signal_event.signal(ZX_EVENT_SIGNALED, 0)`:
clear the signaled bit of the image's event (default-inserting, as
`operator[]` does, though every pending id has an entry in practice). -/
def unsignalImageEvent (m : List (Nat × ImageEventData)) (id : Nat) :
    List (Nat × ImageEventData) :=
  match alookup m id with
  | some ev => ainsert m id { ev with signalSignaled := false }
  | none => ainsert m id ⟨false, 0⟩

/-- The unsignal loop of `RenderFrame`'s direct-scanout branch, over
`pending_images_in_config_`. -/
def unsignalPendingImages : List (Nat × ImageEventData) → List Nat →
    List (Nat × ImageEventData)
  | m, [] => m
  | m, id :: rest => unsignalPendingImages (unsignalImageEvent m id) rest

/-- Results of the display-controller and renderer round-trips made during one
`RenderFrame` call: the fallback-decision `CheckConfig`, the per-display
`CheckConfig` results inside `PerformGpuComposition` (indexed by loop
iteration), the renderer's protected-memory requirement, and the config stamp
returned by `ApplyConfig`. -/
structure FrameOracle where
  checkConfig : Bool
  gpuCheckConfig : Nat → Bool
  requiresRenderInProtected : Nat → Bool
  applyStamp : Nat

/-- Calls into the `ReleaseFenceManager` that transfer the frame's release
fences and present callback. -/
inductive RfmCall where
  | onDirectScanoutFrame (frameNumber : Nat)
  | onGpuCompositedFrame (frameNumber : Nat)
deriving DecidableEq

/-- The per-display loop of `DisplayCompositor::PerformGpuComposition`:
clear stale hardware color conversion if required, fail when the display has
no render-target vmos (or, modelling the source's assertion, no engine data),
advance the back-buffer ring, unsignal the slot's frame-event pair, invoke the
renderer into the chosen render target, assign layer 0 to the back-buffer, and
fail if the per-display `CheckConfig` fails. -/
def gpuLoop (o : FrameOracle) : CompositorState → List RenderData → Nat →
    CompositorState × Bool
  | s, [], _ => (s, true)
  | s, rd :: rest, i =>
      let s0 :=
        if s.cc.gpuRequiresClearing then
          { s with ops := s.ops ++ [Op.dcSetDisplayColorConversion rd.displayId],
                   cc := ccDisplayCleared s.cc }
        else s
      match alookup s0.displayEngineDataMap rd.displayId with
      | none => (s0, false)
      | some ed =>
          if ed.vmoCount = 0 then (s0, false)
          else
            let curr := ed.currVmo
            let ed1 := { ed with currVmo := (ed.currVmo + 1) % ed.vmoCount }
            let fe := ed1.frameEventDatas.getD curr ⟨true, true, 0, 0⟩
            let fe1 := { fe with waitSignaled := false, signalSignaled := false }
            let ed2 := { ed1 with frameEventDatas := ed1.frameEventDatas.set curr fe1 }
            let targets := if o.requiresRenderInProtected i then ed2.protectedRenderTargets
                           else ed2.renderTargets
            let target := targets.getD curr ⟨0, 0, 0, 1, 1, 1, 1, 1, 1⟩
            let applyCC := s0.cc.dataToApply.isSome
            let layer0 := ed2.layers.getD 0 0
            let s1 := { s0 with
                displayEngineDataMap := ainsert s0.displayEngineDataMap rd.displayId ed2,
                ops := s0.ops ++ [Op.rendererRender target.identifier applyCC,
                    Op.dcSetDisplayLayers rd.displayId [layer0]] }
            let s2 := ApplyLayerImage s1 layer0
                ⟨0, 0, (target.width : ℚ), (target.height : ℚ)⟩ target fe.waitId fe.signalId
            if o.gpuCheckConfig i then gpuLoop o s2 rest (i + 1) else (s2, false)

/-- `DisplayCompositor::PerformGpuComposition`: run the per-display loop; on
success hand the render-finished fence, release fences and present callback to
`release_fence_manager_.OnGpuCompositedFrame`; on failure return false without
any `ReleaseFenceManager` call. -/
def PerformGpuComposition (o : FrameOracle) (s : CompositorState) (frameNumber : Nat)
    (renderDataList : List RenderData) : CompositorState × Bool × Option RfmCall :=
  let r := gpuLoop o s renderDataList 0
  if r.2 then (r.1, true, some (.onGpuCompositedFrame frameNumber))
  else (r.1, false, none)

/-- The observable outcome of one `RenderFrame` call: the final state, whether
the GPU fallback path was taken, the applied config stamp (`none` when the
frame returned early without applying a config), and the `ReleaseFenceManager`
call that received the release fences and present callback (`none` when the
fences remain unfired and the callback is never invoked). -/
structure RenderFrameResult where
  state : CompositorState
  usedGpuPath : Bool
  applied : Option Nat
  rfmCall : Option RfmCall
deriving DecidableEq

/-- `DisplayCompositor::RenderFrame`: discard the staged config, attempt
direct scanout, fall back to GPU composition when planning failed, the
`kDisableDisplayComposition` toggle is set, or `CheckConfig` fails; on the
direct path mark the color conversion applied, unsignal the pending image
events and notify `OnDirectScanoutFrame`; finally apply the config and
enqueue the `(stamp, frame_number)` pair — unless the GPU fallback failed, in
which case return with nothing applied and no `ReleaseFenceManager` call. -/
def RenderFrame (kDisableDisplayComposition : Bool) (o : FrameOracle)
    (s : CompositorState) (frameNumber : Nat) (renderDataList : List RenderData) :
    RenderFrameResult :=
  let s1 := DiscardConfig s
  let r := SetRenderDatasOnDisplay kDisableDisplayComposition s1 renderDataList
  let hardwareFailure := !r.2
  let fallbackToGpuComposition :=
    hardwareFailure || kDisableDisplayComposition || !o.checkConfig
  if fallbackToGpuComposition then
    let s3 := DiscardConfig r.1
    let g := PerformGpuComposition o s3 frameNumber renderDataList
    if g.2.1 then
      let s4 := { g.1 with
          ops := g.1.ops ++ [Op.dcApplyConfig],
          pendingApplyConfigs :=
            g.1.pendingApplyConfigs ++ [⟨o.applyStamp, frameNumber⟩] }
      { state := s4, usedGpuPath := true, applied := some o.applyStamp, rfmCall := g.2.2 }
    else
      { state := g.1, usedGpuPath := true, applied := none, rfmCall := none }
  else
    let s3 := { r.1 with cc := ccSetApplyConfigSucceeded r.1.cc }
    let s4 := { s3 with
        imageEventMap := unsignalPendingImages s3.imageEventMap s3.pendingImagesInConfig }
    let s5 := { s4 with
        ops := s4.ops ++ [Op.dcApplyConfig],
        pendingApplyConfigs := s4.pendingApplyConfigs ++ [⟨o.applyStamp, frameNumber⟩] }
    { state := s5, usedGpuPath := false, applied := some o.applyStamp,
      rfmCall := some (.onDirectScanoutFrame frameNumber) }

theorem recordFrameImages_preserves (imgs : List ImageMetadata) :
    ∀ s : CompositorState,
      ((recordFrameImages s imgs).1.displayInfoMap = s.displayInfoMap)
      ∧ ((recordFrameImages s imgs).1.displayEngineDataMap = s.displayEngineDataMap)
      ∧ ((recordFrameImages s imgs).1.bufferCollectionSupportsDisplay
          = s.bufferCollectionSupportsDisplay)
      ∧ ((recordFrameImages s imgs).1.cc = s.cc) := by
  induction imgs with
  | nil => intro s; exact ⟨rfl, rfl, rfl, rfl⟩
  | cons img rest ih =>
      intro s
      rcases h : alookup s.imageEventMap img.identifier with _ | ev
      · simp only [recordFrameImages, h]
        exact ih _
      · cases hs : ev.signalSignaled
        · simp only [recordFrameImages, h, hs]
          exact ⟨rfl, rfl, rfl, rfl⟩
        · simp only [recordFrameImages, h, hs, if_true]
          exact ih _

theorem recordFrameImages_lookup_some (imgs : List ImageMetadata) :
    ∀ (s : CompositorState) (id : Nat) (ev : ImageEventData),
      alookup s.imageEventMap id = some ev →
      alookup (recordFrameImages s imgs).1.imageEventMap id = some ev := by
  induction imgs with
  | nil => intro s id ev h; exact h
  | cons img rest ih =>
      intro s id ev h
      rcases hl : alookup s.imageEventMap img.identifier with _ | ev0
      · simp only [recordFrameImages, hl]
        apply ih
        have hne : img.identifier ≠ id := by
          intro he
          rw [he, h] at hl
          cases hl
        simpa [alookup_ainsert_ne _ _ _ _ hne] using h
      · cases hs : ev0.signalSignaled
        · simp only [recordFrameImages, hl, hs]
          exact h
        · simp only [recordFrameImages, hl, hs, if_true]
          exact ih _ _ _ h

theorem recordFrameImages_pending_mono (imgs : List ImageMetadata) :
    ∀ (s : CompositorState) (id : Nat),
      id ∈ s.pendingImagesInConfig →
      id ∈ (recordFrameImages s imgs).1.pendingImagesInConfig := by
  induction imgs with
  | nil => intro s id h; exact h
  | cons img rest ih =>
      intro s id h
      rcases hl : alookup s.imageEventMap img.identifier with _ | ev0
      · simp only [recordFrameImages, hl]
        apply ih
        simp [h]
      · cases hs : ev0.signalSignaled
        · simp only [recordFrameImages, hl, hs]
          exact h
        · simp only [recordFrameImages, hl, hs, if_true]
          apply ih
          simp [h]

theorem recordFrameImages_success_pending (imgs : List ImageMetadata) :
    ∀ s : CompositorState,
      (recordFrameImages s imgs).2 = true →
      (recordFrameImages s imgs).1.pendingImagesInConfig
        = s.pendingImagesInConfig ++ imgs.map ImageMetadata.identifier := by
  induction imgs with
  | nil => intro s _; simp [recordFrameImages]
  | cons img rest ih =>
      intro s hsucc
      rcases hl : alookup s.imageEventMap img.identifier with _ | ev0
      · simp only [recordFrameImages, hl] at hsucc ⊢
        rw [ih _ hsucc]
        simp
      · cases hs : ev0.signalSignaled
        · simp only [recordFrameImages, hl, hs] at hsucc
          cases hsucc
        · simp only [recordFrameImages, hl, hs, if_true] at hsucc ⊢
          rw [ih _ hsucc]
          simp

theorem recordFrameImages_false_of_inUse (imgs : List ImageMetadata) :
    ∀ s : CompositorState,
      (∃ img ∈ imgs, ∃ ev, alookup s.imageEventMap img.identifier = some ev
          ∧ ev.signalSignaled = false) →
      (recordFrameImages s imgs).2 = false := by
  induction imgs with
  | nil =>
      rintro s ⟨img, hmem, _⟩
      exact absurd hmem (by simp)
  | cons img rest ih =>
      rintro s ⟨w, hw, ev, hev, hsig⟩
      rcases List.mem_cons.mp hw with rfl | hwr
      · simp [recordFrameImages, hev, hsig]
      · rcases hl : alookup s.imageEventMap img.identifier with _ | ev0
        · simp only [recordFrameImages, hl]
          apply ih
          refine ⟨w, hwr, ev, ?_, hsig⟩
          have hne : img.identifier ≠ w.identifier := by
            intro he
            rw [he, hev] at hl
            cases hl
          simpa [alookup_ainsert_ne _ _ _ _ hne] using hev
        · cases hs0 : ev0.signalSignaled
          · simp [recordFrameImages, hl, hs0]
          · simp only [recordFrameImages, hl, hs0, if_true]
            exact ih _ ⟨w, hwr, ev, hev, hsig⟩

theorem applyFrameLayers_preserves (displayId : Nat) (layers : List Nat)
    (rects : List ImageRect) :
    ∀ (imgs : List ImageMetadata) (s : CompositorState) (i : Nat),
      ((applyFrameLayers displayId layers rects s imgs i).1.imageEventMap
          = s.imageEventMap)
      ∧ ((applyFrameLayers displayId layers rects s imgs i).1.pendingImagesInConfig
          = s.pendingImagesInConfig)
      ∧ ((applyFrameLayers displayId layers rects s imgs i).1.displayInfoMap
          = s.displayInfoMap)
      ∧ ((applyFrameLayers displayId layers rects s imgs i).1.displayEngineDataMap
          = s.displayEngineDataMap) := by
  intro imgs
  induction imgs with
  | nil => intro s i; exact ⟨rfl, rfl, rfl, rfl⟩
  | cons img rest ih =>
      intro s i
      simp only [applyFrameLayers]
      split
      · split
        · exact ih _ _
        · exact ⟨rfl, rfl, rfl, rfl⟩
      · split
        · exact ih _ _
        · exact ⟨rfl, rfl, rfl, rfl⟩

theorem applyFrameLayers_success_solid (displayId : Nat) (layers : List Nat)
    (rects : List ImageRect) :
    ∀ (imgs : List ImageMetadata) (s : CompositorState) (i : Nat),
      (applyFrameLayers displayId layers rects s imgs i).2 = true →
      ∀ (j : Nat) (hj : j < imgs.length),
        (imgs.get ⟨j, hj⟩).identifier = kInvalidImageId →
        i + j = 0 ∧ rectCoversDisplay (rects.getD (i + j) ⟨0, 0, 0, 0⟩)
            ((alookup s.displayInfoMap displayId).getD ⟨0, 0⟩) := by
  intro imgs
  induction imgs with
  | nil =>
      intro s i _ j hj
      exact absurd hj (by simp)
  | cons img rest ih =>
      intro s i hsucc j hj hid
      simp only [applyFrameLayers] at hsucc
      cases j with
      | zero =>
          simp only [List.get] at hid
          rw [if_neg (by simp [hid])] at hsucc
          split at hsucc
          · rename_i hcond
            exact ⟨by omega, by simpa using hcond.2⟩
          · cases hsucc
      | succ j0 =>
          have hj0 : j0 < rest.length := by
            simpa using Nat.lt_of_succ_lt_succ hj
          have hid0 : (rest.get ⟨j0, hj0⟩).identifier = kInvalidImageId := by
            simpa using hid
          split at hsucc
          · split at hsucc
            · have := ih _ (i + 1) hsucc j0 hj0 hid0
              refine ⟨by omega, ?_⟩
              have harith : i + 1 + j0 = i + (j0 + 1) := by omega
              rw [harith] at this
              exact this.2
            · cases hsucc
          · split at hsucc
            · have := ih _ (i + 1) hsucc j0 hj0 hid0
              refine ⟨by omega, ?_⟩
              have harith : i + 1 + j0 = i + (j0 + 1) := by omega
              rw [harith] at this
              exact this.2
            · cases hsucc

theorem setRenderData_imageEventMap (s : CompositorState) (data : RenderData) :
    (SetRenderDataOnDisplay s data).1.imageEventMap
      = (recordFrameImages s data.images).1.imageEventMap
    ∨ (SetRenderDataOnDisplay s data).1.imageEventMap = s.imageEventMap := by
  unfold SetRenderDataOnDisplay
  cases hed : alookup s.displayEngineDataMap data.displayId with
  | none => right; rfl
  | some ed =>
      simp only
      split
      · right; rfl
      · split
        · left
          exact (applyFrameLayers_preserves _ _ _ _ _ _).1
        · left; rfl

theorem setRenderData_lookup_some (s : CompositorState) (data : RenderData)
    (id : Nat) (ev : ImageEventData) (h : alookup s.imageEventMap id = some ev) :
    alookup (SetRenderDataOnDisplay s data).1.imageEventMap id = some ev := by
  rcases setRenderData_imageEventMap s data with he | he
  · rw [he]
    exact recordFrameImages_lookup_some _ _ _ _ h
  · rw [he]
    exact h

theorem setRenderData_pending_mono (s : CompositorState) (data : RenderData)
    (id : Nat) (h : id ∈ s.pendingImagesInConfig) :
    id ∈ (SetRenderDataOnDisplay s data).1.pendingImagesInConfig := by
  unfold SetRenderDataOnDisplay
  cases hed : alookup s.displayEngineDataMap data.displayId with
  | none => exact h
  | some ed =>
      simp only
      split
      · exact h
      · split
        · rw [(applyFrameLayers_preserves _ _ _ _ _ _).2.1]
          exact recordFrameImages_pending_mono _ _ _ h
        · exact recordFrameImages_pending_mono _ _ _ h

theorem setRenderData_success_mem (s : CompositorState) (data : RenderData)
    (h : (SetRenderDataOnDisplay s data).2 = true) :
    ∀ img ∈ data.images,
      img.identifier ∈ (SetRenderDataOnDisplay s data).1.pendingImagesInConfig := by
  intro img hmem
  unfold SetRenderDataOnDisplay at h ⊢
  cases hed : alookup s.displayEngineDataMap data.displayId with
  | none =>
      rw [hed] at h
      cases h
  | some ed =>
      rw [hed] at h
      simp only at h ⊢
      split at h
      · cases h
      · rename_i hlen
        rw [if_neg hlen]
        split at h
        · rename_i hrec
          rw [if_pos hrec]
          rw [(applyFrameLayers_preserves _ _ _ _ _ _).2.1]
          rw [recordFrameImages_success_pending _ _ hrec]
          simp only [List.mem_append, List.mem_map]
          right
          exact ⟨img, hmem, rfl⟩
        · rename_i hrec
          exact absurd h hrec

theorem setRenderData_false_of_inUse (s : CompositorState) (data : RenderData)
    (h : ∃ img ∈ data.images, ∃ ev,
        alookup s.imageEventMap img.identifier = some ev ∧ ev.signalSignaled = false) :
    (SetRenderDataOnDisplay s data).2 = false := by
  have hrec := recordFrameImages_false_of_inUse data.images s h
  unfold SetRenderDataOnDisplay
  cases hed : alookup s.displayEngineDataMap data.displayId with
  | none => rfl
  | some ed =>
      simp only
      split
      · rfl
      · split
        · rename_i hcond
          rw [hrec] at hcond
          cases hcond
        · exact hrec

theorem setRenderDatasLoop_lookup_some (l : List RenderData) :
    ∀ (s : CompositorState) (id : Nat) (ev : ImageEventData),
      alookup s.imageEventMap id = some ev →
      alookup (setRenderDatasLoop s l).1.imageEventMap id = some ev := by
  induction l with
  | nil => intro s id ev h; exact h
  | cons d rest ih =>
      intro s id ev h
      simp only [setRenderDatasLoop]
      split
      · cases hcc : (SetRenderDataOnDisplay s d).1.cc.dataToApply with
        | none =>
            simp only [hcc]
            exact ih _ _ _ (setRenderData_lookup_some s d id ev h)
        | some cd =>
            simp only [hcc]
            exact ih _ _ _ (setRenderData_lookup_some s d id ev h)
      · exact setRenderData_lookup_some s d id ev h

theorem setRenderDatasLoop_pending_mono (l : List RenderData) :
    ∀ (s : CompositorState) (id : Nat),
      id ∈ s.pendingImagesInConfig →
      id ∈ (setRenderDatasLoop s l).1.pendingImagesInConfig := by
  induction l with
  | nil => intro s id h; exact h
  | cons d rest ih =>
      intro s id h
      simp only [setRenderDatasLoop]
      split
      · cases hcc : (SetRenderDataOnDisplay s d).1.cc.dataToApply with
        | none =>
            simp only [hcc]
            exact ih _ _ (setRenderData_pending_mono s d id h)
        | some cd =>
            simp only [hcc]
            exact ih _ _ (setRenderData_pending_mono s d id h)
      · exact setRenderData_pending_mono s d id h

theorem setRenderDatasLoop_success_mem (l : List RenderData) :
    ∀ s : CompositorState,
      (setRenderDatasLoop s l).2 = true →
      ∀ data ∈ l, ∀ img ∈ data.images,
        img.identifier ∈ (setRenderDatasLoop s l).1.pendingImagesInConfig := by
  induction l with
  | nil =>
      intro s _ data hmem
      exact absurd hmem (by simp)
  | cons d rest ih =>
      intro s hsucc data hd img hmem
      simp only [setRenderDatasLoop] at hsucc ⊢
      split at hsucc
      · rename_i hr
        rcases List.mem_cons.mp hd with rfl | hdr
        · have hin : img.identifier ∈ (SetRenderDataOnDisplay s data).1.pendingImagesInConfig :=
            setRenderData_success_mem s data hr img hmem
          rw [if_pos hr]
          cases hcc : (SetRenderDataOnDisplay s data).1.cc.dataToApply with
          | none =>
              simp only [hcc]
              exact setRenderDatasLoop_pending_mono rest _ _ hin
          | some cd =>
              simp only [hcc]
              exact setRenderDatasLoop_pending_mono rest _ _ hin
        · rw [if_pos hr]
          cases hcc : (SetRenderDataOnDisplay s d).1.cc.dataToApply with
          | none =>
              simp only [hcc] at hsucc ⊢
              exact ih _ hsucc data hdr img hmem
          | some cd =>
              simp only [hcc] at hsucc ⊢
              exact ih _ hsucc data hdr img hmem
      · rename_i hr
        exact absurd hsucc hr

theorem setRenderDatasLoop_false_of_inUse (l : List RenderData) :
    ∀ s : CompositorState,
      (∃ data ∈ l, ∃ img ∈ data.images, ∃ ev,
          alookup s.imageEventMap img.identifier = some ev ∧ ev.signalSignaled = false) →
      (setRenderDatasLoop s l).2 = false := by
  induction l with
  | nil =>
      rintro s ⟨data, hmem, _⟩
      exact absurd hmem (by simp)
  | cons d rest ih =>
      rintro s ⟨data, hd, img, hmem, ev, hev, hsig⟩
      simp only [setRenderDatasLoop]
      rcases List.mem_cons.mp hd with rfl | hdr
      · have hfail := setRenderData_false_of_inUse s data ⟨img, hmem, ev, hev, hsig⟩
        rw [if_neg (by simp [hfail])]
        exact hfail
      · split
        · have hkeep := setRenderData_lookup_some s d img.identifier ev hev
          cases hcc : (SetRenderDataOnDisplay s d).1.cc.dataToApply with
          | none =>
              simp only [hcc]
              exact ih _ ⟨data, hdr, img, hmem, ev, hkeep, hsig⟩
          | some cd =>
              simp only [hcc]
              exact ih _ ⟨data, hdr, img, hmem, ev, hkeep, hsig⟩
        · rename_i hr
          simpa using hr

theorem gpuLoop_preserves (o : FrameOracle) :
    ∀ (l : List RenderData) (s : CompositorState) (i : Nat),
      ((gpuLoop o s l i).1.imageEventMap = s.imageEventMap)
      ∧ ((gpuLoop o s l i).1.pendingImagesInConfig = s.pendingImagesInConfig) := by
  intro l
  induction l with
  | nil => intro s i; exact ⟨rfl, rfl⟩
  | cons rd rest ih =>
      intro s i
      simp only [gpuLoop]
      by_cases hcc : s.cc.gpuRequiresClearing = true
      · rw [if_pos hcc]
        split
        · exact ⟨rfl, rfl⟩
        · split
          · exact ⟨rfl, rfl⟩
          · split
            · exact ih _ _
            · exact ⟨rfl, rfl⟩
      · rw [if_neg hcc]
        split
        · exact ⟨rfl, rfl⟩
        · split
          · exact ⟨rfl, rfl⟩
          · split
            · exact ih _ _
            · exact ⟨rfl, rfl⟩

theorem unsignalImageEvent_lookup_self (m : List (Nat × ImageEventData)) (id : Nat) :
    ∃ ev, alookup (unsignalImageEvent m id) id = some ev ∧ ev.signalSignaled = false := by
  unfold unsignalImageEvent
  cases h : alookup m id with
  | none => exact ⟨⟨false, 0⟩, alookup_ainsert_self _ _ _, rfl⟩
  | some ev => exact ⟨{ ev with signalSignaled := false }, alookup_ainsert_self _ _ _, rfl⟩

theorem unsignalImageEvent_lookup_ne (m : List (Nat × ImageEventData))
    (id id' : Nat) (h : id ≠ id') :
    alookup (unsignalImageEvent m id) id' = alookup m id' := by
  unfold unsignalImageEvent
  cases hm : alookup m id with
  | none => exact alookup_ainsert_ne _ _ _ _ h
  | some ev => exact alookup_ainsert_ne _ _ _ _ h

theorem unsignalPendingImages_lookup_not_mem :
    ∀ (pending : List Nat) (m : List (Nat × ImageEventData)) (id : Nat),
      id ∉ pending →
      alookup (unsignalPendingImages m pending) id = alookup m id := by
  intro pending
  induction pending with
  | nil => intro m id _; rfl
  | cons p rest ih =>
      intro m id h
      simp only [List.mem_cons, not_or] at h
      simp only [unsignalPendingImages]
      rw [ih _ _ h.2, unsignalImageEvent_lookup_ne _ _ _ (fun he => h.1 he.symm)]

theorem unsignalPendingImages_lookup_mem :
    ∀ (pending : List Nat) (m : List (Nat × ImageEventData)) (id : Nat),
      id ∈ pending →
      ∃ ev, alookup (unsignalPendingImages m pending) id = some ev
        ∧ ev.signalSignaled = false := by
  intro pending
  induction pending with
  | nil =>
      intro m id h
      exact absurd h (by simp)
  | cons p rest ih =>
      intro m id h
      simp only [unsignalPendingImages]
      by_cases hr : id ∈ rest
      · exact ih _ _ hr
      · rcases List.mem_cons.mp h with rfl | habs
        · obtain ⟨ev, hev, hsig⟩ := unsignalImageEvent_lookup_self m id
          refine ⟨ev, ?_, hsig⟩
          rw [unsignalPendingImages_lookup_not_mem rest _ _ hr]
          exact hev
        · exact absurd habs hr

theorem renderFrame_usedGpuPath (kD : Bool) (o : FrameOracle) (s : CompositorState)
    (fn : Nat) (l : List RenderData) :
    (RenderFrame kD o s fn l).usedGpuPath
      = (!(SetRenderDatasOnDisplay kD (DiscardConfig s) l).2 || kD || !o.checkConfig) := by
  cases hcond : (!(SetRenderDatasOnDisplay kD (DiscardConfig s) l).2 || kD || !o.checkConfig) with
  | false => simp [RenderFrame, hcond]
  | true => simp [RenderFrame, hcond, apply_ite RenderFrameResult.usedGpuPath]

theorem renderFrame_gpu_state (kD : Bool) (o : FrameOracle) (s : CompositorState)
    (fn : Nat) (l : List RenderData)
    (hcond : (!(SetRenderDatasOnDisplay kD (DiscardConfig s) l).2 || kD || !o.checkConfig)
        = true) :
    (RenderFrame kD o s fn l).state.imageEventMap
      = (gpuLoop o (DiscardConfig (SetRenderDatasOnDisplay kD (DiscardConfig s) l).1) l 0).1.imageEventMap
    ∧ (RenderFrame kD o s fn l).state.pendingImagesInConfig
      = (gpuLoop o (DiscardConfig (SetRenderDatasOnDisplay kD (DiscardConfig s) l).1) l 0).1.pendingImagesInConfig := by
  refine ⟨?_, ?_⟩ <;>
    simp [RenderFrame, PerformGpuComposition, hcond,
      apply_ite RenderFrameResult.state, apply_ite CompositorState.imageEventMap,
      apply_ite CompositorState.pendingImagesInConfig,
      apply_ite (fun p : CompositorState × Bool × Option RfmCall => p.1)]

theorem renderFrame_gpu_fail (kD : Bool) (o : FrameOracle) (s : CompositorState)
    (fn : Nat) (l : List RenderData)
    (hcond : (!(SetRenderDatasOnDisplay kD (DiscardConfig s) l).2 || kD || !o.checkConfig)
        = true)
    (hfail : (gpuLoop o (DiscardConfig (SetRenderDatasOnDisplay kD (DiscardConfig s) l).1) l 0).2
        = false) :
    (RenderFrame kD o s fn l).applied = none
    ∧ (RenderFrame kD o s fn l).rfmCall = none := by
  simp [RenderFrame, PerformGpuComposition, hcond, hfail]

theorem renderFrame_direct_state (kD : Bool) (o : FrameOracle) (s : CompositorState)
    (fn : Nat) (l : List RenderData)
    (hcond : (!(SetRenderDatasOnDisplay kD (DiscardConfig s) l).2 || kD || !o.checkConfig)
        = false) :
    (RenderFrame kD o s fn l).usedGpuPath = false
    ∧ (RenderFrame kD o s fn l).state.imageEventMap
      = unsignalPendingImages (SetRenderDatasOnDisplay kD (DiscardConfig s) l).1.imageEventMap
          (SetRenderDatasOnDisplay kD (DiscardConfig s) l).1.pendingImagesInConfig
    ∧ (RenderFrame kD o s fn l).rfmCall = some (RfmCall.onDirectScanoutFrame fn)
    ∧ (RenderFrame kD o s fn l).applied = some o.applyStamp := by
  refine ⟨?_, ?_, ?_, ?_⟩ <;> simp [RenderFrame, hcond]

/-- A concrete display-engine entry (two layers, one back-buffer) used by the
witness scenarios. -/
def edWitness : DisplayEngineData :=
  { layers := [10, 11], vmoCount := 1, currVmo := 0,
    frameEventDatas := [⟨true, true, 100, 101⟩],
    renderTargets := [⟨1, 5, 0, 1920, 1080, 1, 1, 1, 1⟩],
    protectedRenderTargets := [] }

/-- A concrete compositor state with one 1920x1080 display. -/
def sWitness : CompositorState :=
  { emptyState with
      displayEngineDataMap := [(1, edWitness)],
      displayInfoMap := [(1, ⟨1920, 1080⟩)] }

/-- A concrete all-ok frame oracle. -/
def oWitness : FrameOracle :=
  { checkConfig := true, gpuCheckConfig := fun _ => true,
    requiresRenderInProtected := fun _ => false, applyStamp := 42 }

/-- A solid-color entry (invalid sentinel image id). -/
def solidImage : ImageMetadata := ⟨0, 0, 0, 1, 1, 1, 0, 0, 1⟩

/-- A frame whose only entry is a full-screen solid color rectangle. -/
def solidFrame : RenderData :=
  { displayId := 1, rectangles := [⟨0, 0, 1920, 1080⟩], images := [solidImage] }

/-- A frame whose only entry is a partial-cover solid color rectangle. -/
def solidPartialFrame : RenderData :=
  { displayId := 1, rectangles := [⟨0, 0, 100, 100⟩], images := [solidImage] }

/-- A normal client image in collection 1. -/
def clientImage : ImageMetadata := ⟨7, 1, 0, 16, 16, 1, 1, 1, 1⟩

/-- A frame carrying the client image. -/
def clientFrame : RenderData :=
  { displayId := 1, rectangles := [⟨0, 0, 16, 16⟩], images := [clientImage] }

/-- `sWitness` with collection 1 marked display-supported. -/
def sClientSupported : CompositorState :=
  { sWitness with bufferCollectionSupportsDisplay := [(1, true)] }

/-- `sClientSupported` with the client image's signal event unsignaled (the
image is still in use by the display). -/
def sInUse : CompositorState :=
  { sClientSupported with imageEventMap := [(7, ⟨false, 3⟩)] }

/-- `sWitness` with a display whose render-target ring is empty, so the GPU
fallback fails. -/
def sNoVmos : CompositorState :=
  { sWitness with displayEngineDataMap := [(1, { edWitness with vmoCount := 0 })] }

/-- C1: `RenderFrame` falls back to GPU composition exactly when direct-scanout
planning failed, or the `kDisableDisplayComposition` toggle is set, or
`CheckConfig` fails; and when the GPU fallback path also fails, `RenderFrame`
returns without applying any config (`applied = none`) and without handing the
present callback and release fences to the `ReleaseFenceManager`
(`rfmCall = none`), so the callback is never invoked and the release fences
remain unfired. -/
theorem C1_renderFrame_fallback_and_failure :
    ∀ (kD : Bool) (o : FrameOracle) (s : CompositorState) (fn : Nat)
      (l : List RenderData),
      ((RenderFrame kD o s fn l).usedGpuPath
        = (!(SetRenderDatasOnDisplay kD (DiscardConfig s) l).2 || kD || !o.checkConfig))
      ∧ ((gpuLoop o (DiscardConfig (SetRenderDatasOnDisplay kD (DiscardConfig s) l).1) l 0).2
            = false →
          (RenderFrame kD o s fn l).usedGpuPath = true →
          (RenderFrame kD o s fn l).applied = none
          ∧ (RenderFrame kD o s fn l).rfmCall = none) := by
  intro kD o s fn l
  refine ⟨renderFrame_usedGpuPath kD o s fn l, ?_⟩
  intro hfail hused
  have hcond : (!(SetRenderDatasOnDisplay kD (DiscardConfig s) l).2 || kD || !o.checkConfig)
      = true := by
    rw [← renderFrame_usedGpuPath kD o s fn l]
    exact hused
  exact renderFrame_gpu_fail kD o s fn l hcond hfail

/-- Witness for C1: with display composition disabled and a display whose
render-target ring is empty, the GPU loop fails, and the frame applies nothing
and makes no `ReleaseFenceManager` call. -/
theorem C1_renderFrame_fallback_and_failure_witness :
    ((gpuLoop oWitness
        (DiscardConfig (SetRenderDatasOnDisplay true (DiscardConfig sNoVmos) [clientFrame]).1)
        [clientFrame] 0).2 = false)
    ∧ ((RenderFrame true oWitness sNoVmos 1 [clientFrame]).usedGpuPath = true)
    ∧ ((RenderFrame true oWitness sNoVmos 1 [clientFrame]).applied = none
       ∧ (RenderFrame true oWitness sNoVmos 1 [clientFrame]).rfmCall = none) := by
  refine ⟨by decide, by decide, ?_⟩
  exact (C1_renderFrame_fallback_and_failure true oWitness sNoVmos 1 [clientFrame]).2
    (by decide) (by decide)

/-- C3: a frame containing an image whose existing `ImageEventData` signal
event is not signaled is rejected by the direct-scanout planner
(`SetRenderDataOnDisplay` returns false), and any `RenderFrame` whose render
data list contains that frame takes the GPU fallback path. -/
theorem C3_inUse_image_forces_gpu_fallback :
    ∀ (s : CompositorState) (data : RenderData),
      (∃ img ∈ data.images, ∃ ev, alookup s.imageEventMap img.identifier = some ev
          ∧ ev.signalSignaled = false) →
      ((SetRenderDataOnDisplay s data).2 = false)
      ∧ (∀ (o : FrameOracle) (fn : Nat) (l : List RenderData), data ∈ l →
          (RenderFrame false o s fn l).usedGpuPath = true) := by
  intro s data hin
  refine ⟨setRenderData_false_of_inUse s data hin, ?_⟩
  intro o fn l hmem
  rw [renderFrame_usedGpuPath]
  have hloop : (setRenderDatasLoop (DiscardConfig s) l).2 = false := by
    apply setRenderDatasLoop_false_of_inUse
    obtain ⟨img, himg, ev, hev, hsig⟩ := hin
    exact ⟨data, hmem, img, himg, ev, hev, hsig⟩
  have hplanned : (SetRenderDatasOnDisplay false (DiscardConfig s) l).2 = false := by
    simpa [SetRenderDatasOnDisplay] using hloop
  simp [hplanned]

/-- Witness for C3: the client image's event is unsignaled in `sInUse`, the
planner rejects the frame, and the frame is composited through the GPU
fallback path. -/
theorem C3_inUse_image_forces_gpu_fallback_witness :
    (∃ img ∈ clientFrame.images, ∃ ev,
        alookup sInUse.imageEventMap img.identifier = some ev
        ∧ ev.signalSignaled = false)
    ∧ ((SetRenderDataOnDisplay sInUse clientFrame).2 = false)
    ∧ ((RenderFrame false oWitness sInUse 1 [clientFrame]).usedGpuPath = true) := by
  have hin : ∃ img ∈ clientFrame.images, ∃ ev,
      alookup sInUse.imageEventMap img.identifier = some ev
      ∧ ev.signalSignaled = false :=
    ⟨clientImage, by decide, ⟨false, 3⟩, by decide, rfl⟩
  refine ⟨hin, (C3_inUse_image_forces_gpu_fallback sInUse clientFrame hin).1, ?_⟩
  exact (C3_inUse_image_forces_gpu_fallback sInUse clientFrame hin).2 oWitness 1
    [clientFrame] (by decide)

/-- C4: the image signal events recorded by the planner are unsignaled only on
the committed direct-scanout path — when the frame stays on the direct path,
`CheckConfig` succeeded, the planner succeeded, every pending image's event
ends up unsignaled and no other event entry changes; when the frame falls back
to GPU composition, the pending image list is discarded and the image event
map is exactly the one the planner left (no event is unsignaled). -/
theorem C4_unsignal_only_after_checkConfig :
    ∀ (kD : Bool) (o : FrameOracle) (s : CompositorState) (fn : Nat)
      (l : List RenderData),
      ((RenderFrame kD o s fn l).usedGpuPath = false →
        o.checkConfig = true
        ∧ (SetRenderDatasOnDisplay kD (DiscardConfig s) l).2 = true
        ∧ (∀ id ∈ (SetRenderDatasOnDisplay kD (DiscardConfig s) l).1.pendingImagesInConfig,
            ∃ ev, alookup (RenderFrame kD o s fn l).state.imageEventMap id = some ev
              ∧ ev.signalSignaled = false)
        ∧ (∀ id, id ∉ (SetRenderDatasOnDisplay kD (DiscardConfig s) l).1.pendingImagesInConfig →
            alookup (RenderFrame kD o s fn l).state.imageEventMap id
              = alookup (SetRenderDatasOnDisplay kD (DiscardConfig s) l).1.imageEventMap id))
      ∧ ((RenderFrame kD o s fn l).usedGpuPath = true →
        (RenderFrame kD o s fn l).state.imageEventMap
          = (SetRenderDatasOnDisplay kD (DiscardConfig s) l).1.imageEventMap
        ∧ (RenderFrame kD o s fn l).state.pendingImagesInConfig = []) := by
  intro kD o s fn l
  constructor
  · intro hused
    have hcond : (!(SetRenderDatasOnDisplay kD (DiscardConfig s) l).2 || kD || !o.checkConfig)
        = false := by
      rw [← renderFrame_usedGpuPath kD o s fn l]
      exact hused
    have hccfg : o.checkConfig = true := by
      cases h : o.checkConfig
      · rw [h] at hcond
        simp at hcond
      · rfl
    have hp : (SetRenderDatasOnDisplay kD (DiscardConfig s) l).2 = true := by
      cases h : (SetRenderDatasOnDisplay kD (DiscardConfig s) l).2
      · rw [h] at hcond
        simp at hcond
      · rfl
    obtain ⟨-, hmap, -, -⟩ := renderFrame_direct_state kD o s fn l hcond
    refine ⟨hccfg, hp, ?_, ?_⟩
    · intro id hid
      rw [hmap]
      exact unsignalPendingImages_lookup_mem _ _ _ hid
    · intro id hid
      rw [hmap]
      exact unsignalPendingImages_lookup_not_mem _ _ _ hid
  · intro hused
    have hcond : (!(SetRenderDatasOnDisplay kD (DiscardConfig s) l).2 || kD || !o.checkConfig)
        = true := by
      rw [← renderFrame_usedGpuPath kD o s fn l]
      exact hused
    obtain ⟨hmap, hpend⟩ := renderFrame_gpu_state kD o s fn l hcond
    have hg := gpuLoop_preserves o l
        (DiscardConfig (SetRenderDatasOnDisplay kD (DiscardConfig s) l).1) 0
    constructor
    · rw [hmap, hg.1]
      rfl
    · rw [hpend, hg.2]
      rfl

/-- Witness for C4 at the committed direct-scanout frame of a supported client
image: `CheckConfig` succeeded, the planner succeeded, and the pending image
events are unsignaled. -/
theorem C4_unsignal_only_after_checkConfig_witness :
    ((RenderFrame false oWitness sClientSupported 1 [clientFrame]).usedGpuPath = false)
    ∧ (oWitness.checkConfig = true
       ∧ (SetRenderDatasOnDisplay false (DiscardConfig sClientSupported) [clientFrame]).2 = true
       ∧ (∀ id ∈ (SetRenderDatasOnDisplay false (DiscardConfig sClientSupported)
              [clientFrame]).1.pendingImagesInConfig,
            ∃ ev, alookup (RenderFrame false oWitness sClientSupported 1
                [clientFrame]).state.imageEventMap id = some ev
              ∧ ev.signalSignaled = false)
       ∧ (∀ id, id ∉ (SetRenderDatasOnDisplay false (DiscardConfig sClientSupported)
              [clientFrame]).1.pendingImagesInConfig →
            alookup (RenderFrame false oWitness sClientSupported 1
                [clientFrame]).state.imageEventMap id
              = alookup (SetRenderDatasOnDisplay false (DiscardConfig sClientSupported)
                  [clientFrame]).1.imageEventMap id)) := by
  refine ⟨by decide, ?_⟩
  exact (C4_unsignal_only_after_checkConfig false oWitness sClientSupported 1
    [clientFrame]).1 (by decide)

/-- C8: a frame accepted by the direct-scanout planner has every solid-color
entry (invalid sentinel image id) at index 0 with a rectangle covering the
display exactly; conversely a solid-color entry at a nonzero index or with any
other geometry makes the planner reject the frame. -/
theorem C8_solid_color_backmost_fullscreen_only :
    ∀ (s : CompositorState) (data : RenderData),
      ((SetRenderDataOnDisplay s data).2 = true →
        ∀ (j : Nat) (hj : j < data.images.length),
          (data.images.get ⟨j, hj⟩).identifier = kInvalidImageId →
          j = 0 ∧ rectCoversDisplay (data.rectangles.getD j ⟨0, 0, 0, 0⟩)
              ((alookup s.displayInfoMap data.displayId).getD ⟨0, 0⟩))
      ∧ ((∃ j, ∃ hj : j < data.images.length,
            (data.images.get ⟨j, hj⟩).identifier = kInvalidImageId
            ∧ ¬(j = 0 ∧ rectCoversDisplay (data.rectangles.getD j ⟨0, 0, 0, 0⟩)
                ((alookup s.displayInfoMap data.displayId).getD ⟨0, 0⟩))) →
          (SetRenderDataOnDisplay s data).2 = false) := by
  intro s data
  have hpart1 : (SetRenderDataOnDisplay s data).2 = true →
      ∀ (j : Nat) (hj : j < data.images.length),
        (data.images.get ⟨j, hj⟩).identifier = kInvalidImageId →
        j = 0 ∧ rectCoversDisplay (data.rectangles.getD j ⟨0, 0, 0, 0⟩)
            ((alookup s.displayInfoMap data.displayId).getD ⟨0, 0⟩) := by
    intro hsucc j hj hid
    unfold SetRenderDataOnDisplay at hsucc
    cases hed : alookup s.displayEngineDataMap data.displayId with
    | none =>
        rw [hed] at hsucc
        cases hsucc
    | some ed =>
        rw [hed] at hsucc
        simp only at hsucc
        split at hsucc
        · simp at hsucc
        · split at hsucc
          · have hsolid := applyFrameLayers_success_solid data.displayId ed.layers
              data.rectangles data.images _ 0 hsucc j hj hid
            have hinfo : (recordFrameImages s data.images).1.displayInfoMap
                = s.displayInfoMap := (recordFrameImages_preserves data.images s).1
            obtain ⟨hj0, hcov⟩ := hsolid
            rw [Nat.zero_add] at hj0
            refine ⟨hj0, ?_⟩
            have hcov2 : rectCoversDisplay (data.rectangles.getD (0 + j) ⟨0, 0, 0, 0⟩)
                ((alookup (recordFrameImages s data.images).1.displayInfoMap
                    data.displayId).getD ⟨0, 0⟩) := hcov
            rw [Nat.zero_add, hinfo] at hcov2
            exact hcov2
          · rename_i hrec
            exact absurd hsucc hrec
  refine ⟨hpart1, ?_⟩
  rintro ⟨j, hj, hid, hviol⟩
  cases hb : (SetRenderDataOnDisplay s data).2 with
  | false => rfl
  | true => exact absurd (hpart1 hb j hj hid) hviol

/-- Witness for C8: a solid-color rectangle at index 0 that covers only a
100x100 region of the 1920x1080 display makes the planner reject the frame. -/
theorem C8_solid_color_backmost_fullscreen_only_witness :
    (∃ j, ∃ hj : j < solidPartialFrame.images.length,
        (solidPartialFrame.images.get ⟨j, hj⟩).identifier = kInvalidImageId
        ∧ ¬(j = 0 ∧ rectCoversDisplay (solidPartialFrame.rectangles.getD j ⟨0, 0, 0, 0⟩)
            ((alookup sWitness.displayInfoMap solidPartialFrame.displayId).getD ⟨0, 0⟩)))
    ∧ (SetRenderDataOnDisplay sWitness solidPartialFrame).2 = false := by
  refine ⟨⟨0, by decide, by decide, by decide⟩, ?_⟩
  exact (C8_solid_color_backmost_fullscreen_only sWitness solidPartialFrame).2
    ⟨0, by decide, by decide, by decide⟩

/-- C10: the planner records an `ImageEventData` keyed by the invalid sentinel
id for solid-color entries too, so a committed direct-scanout frame that
contained a solid-color rectangle leaves that event unsignaled; since no
display-controller signal is ever attached to a color layer, nothing
re-signals it, and from the resulting state every frame containing a
solid-color entry fails the planner's in-use check and forces the GPU
fallback path. -/
theorem C10_solid_color_poisons_direct_scanout :
    ∀ (o : FrameOracle) (s : CompositorState) (fn : Nat) (l : List RenderData),
      (RenderFrame false o s fn l).usedGpuPath = false →
      (∃ data ∈ l, ∃ img ∈ data.images, img.identifier = kInvalidImageId) →
      (∃ ev, alookup (RenderFrame false o s fn l).state.imageEventMap kInvalidImageId
          = some ev ∧ ev.signalSignaled = false)
      ∧ (∀ data2, (∃ img ∈ data2.images, img.identifier = kInvalidImageId) →
          (SetRenderDataOnDisplay (RenderFrame false o s fn l).state data2).2 = false
          ∧ ∀ (o2 : FrameOracle) (fn2 : Nat) (l2 : List RenderData), data2 ∈ l2 →
            (RenderFrame false o2 (RenderFrame false o s fn l).state fn2 l2).usedGpuPath
              = true) := by
  intro o s fn l hused hsolid
  have hcond : (!(SetRenderDatasOnDisplay false (DiscardConfig s) l).2 || false
      || !o.checkConfig) = false := by
    rw [← renderFrame_usedGpuPath false o s fn l]
    exact hused
  have hp : (SetRenderDatasOnDisplay false (DiscardConfig s) l).2 = true := by
    cases h : (SetRenderDatasOnDisplay false (DiscardConfig s) l).2
    · rw [h] at hcond
      simp at hcond
    · rfl
  obtain ⟨-, hmap, -, -⟩ := renderFrame_direct_state false o s fn l hcond
  obtain ⟨data, hdl, img, himg, hid⟩ := hsolid
  have hloop : (setRenderDatasLoop (DiscardConfig s) l).2 = true := by
    simpa [SetRenderDatasOnDisplay] using hp
  have hmem : kInvalidImageId ∈ (setRenderDatasLoop (DiscardConfig s) l).1.pendingImagesInConfig := by
    have := setRenderDatasLoop_success_mem l (DiscardConfig s) hloop data hdl img himg
    rwa [hid] at this
  have hmem2 : kInvalidImageId
      ∈ (SetRenderDatasOnDisplay false (DiscardConfig s) l).1.pendingImagesInConfig := by
    simpa [SetRenderDatasOnDisplay] using hmem
  have hev : ∃ ev, alookup (RenderFrame false o s fn l).state.imageEventMap kInvalidImageId
      = some ev ∧ ev.signalSignaled = false := by
    rw [hmap]
    exact unsignalPendingImages_lookup_mem _ _ _ hmem2
  refine ⟨hev, ?_⟩
  intro data2 hsolid2
  obtain ⟨ev, hevl, hsig⟩ := hev
  obtain ⟨img2, himg2, hid2⟩ := hsolid2
  have hin : ∃ im ∈ data2.images, ∃ e,
      alookup (RenderFrame false o s fn l).state.imageEventMap im.identifier = some e
      ∧ e.signalSignaled = false :=
    ⟨img2, himg2, ev, by rw [hid2]; exact hevl, hsig⟩
  constructor
  · exact setRenderData_false_of_inUse _ _ hin
  · intro o2 fn2 l2 hl2
    rw [renderFrame_usedGpuPath]
    have hloop2 : (setRenderDatasLoop
        (DiscardConfig (RenderFrame false o s fn l).state) l2).2 = false := by
      apply setRenderDatasLoop_false_of_inUse
      exact ⟨data2, hl2, img2, himg2, ev, (by rw [hid2]; exact hevl), hsig⟩
    have hplanned2 : (SetRenderDatasOnDisplay false
        (DiscardConfig (RenderFrame false o s fn l).state) l2).2 = false := by
      simpa [SetRenderDatasOnDisplay] using hloop2
    simp [hplanned2]

/-- Witness for C10: a committed full-screen solid-color frame leaves the
sentinel event unsignaled, and a second solid-color frame is rejected by the
planner and forced onto the GPU path. -/
theorem C10_solid_color_poisons_direct_scanout_witness :
    ((RenderFrame false oWitness sWitness 7 [solidFrame]).usedGpuPath = false)
    ∧ (∃ data ∈ [solidFrame], ∃ img ∈ data.images, img.identifier = kInvalidImageId)
    ∧ ((∃ ev, alookup (RenderFrame false oWitness sWitness 7
          [solidFrame]).state.imageEventMap kInvalidImageId = some ev
          ∧ ev.signalSignaled = false)
       ∧ (∀ data2, (∃ img ∈ data2.images, img.identifier = kInvalidImageId) →
          (SetRenderDataOnDisplay (RenderFrame false oWitness sWitness 7
              [solidFrame]).state data2).2 = false
          ∧ ∀ (o2 : FrameOracle) (fn2 : Nat) (l2 : List RenderData), data2 ∈ l2 →
            (RenderFrame false o2 (RenderFrame false oWitness sWitness 7
                [solidFrame]).state fn2 l2).usedGpuPath = true)) := by
  refine ⟨by decide, by decide, ?_⟩
  exact C10_solid_color_poisons_direct_scanout oWitness sWitness 7 [solidFrame]
    (by decide) (by decide)

end Flatland
